import Mathlib

/-!
Verification of the BluecatClient core (bluecat_bam_tools/bluecat_client.py):
the session/authentication state machine, the cursor-following pagination
engine, the resource-lookup layer, the zone-hierarchy resolver and the
multi-view record-creation orchestration.

The Python class is shallowly embedded: the mutable `self` becomes an
explicit `Client` record threaded through each operation, the HTTP server
becomes a function from URL to a parsed page response, raised exceptions
become `Except Err`, and the unbounded pagination `while` loop takes fuel
(the real loop does not terminate on a cyclic chain of next-links either;
fuel exhaustion is reported as its own error, distinct from every behaviour
claimed of the code). Headers are kept abstractly (base64 transport
encoding of the Basic credential is an invertible encoding detail and is
not modelled). Python `isinstance` checks vanish under static typing; all
other validations are kept in source order.
-/

/-- The exceptions the client can raise, by Python class (messages kept
where the source builds one). -/
inductive Err where
  | runtimeError (msg : String)
  | valueError (msg : String)
  | typeError (msg : String)
  | httpError
  | connectionError
  | timeout
  | requestException
  | jsonDecodeError
  | loginError (msg : String)
  | outOfFuel
deriving Repr, DecidableEq

/-- The `self.headers` field: `None` before login, the plain content-type
headers set at the start of `login()`, or the authorized headers derived
from `username:apiToken` (base64 framing not modelled). -/
inductive HeaderSet where
  | plain
  | authorized (user : String) (token : String)
deriving Repr, DecidableEq

/-- The mutable state of a `BluecatClient` instance.  `hasSession` models
`self.session is not None`; `sessionClosed` records whether
`session.close()` has been called on it. -/
structure Client where
  hostname : String
  username : String
  password : String
  verifySsl : Bool
  apiToken : Option String
  headers : Option HeaderSet
  loggedIn : Bool
  hasSession : Bool
  sessionClosed : Bool
deriving Repr, DecidableEq

/-- `BluecatClient.__init__`: fields as assigned in the constructor
(`api_token = None`, `headers = None`, `logged_in = False`,
`session = None`). -/
def mkClient (hostname username password : String) (verifySsl : Bool) : Client :=
  { hostname := hostname
    username := username
    password := password
    verifySsl := verifySsl
    apiToken := none
    headers := none
    loggedIn := false
    hasSession := false
    sessionClosed := false }

/-- What the authentication POST to `/sessions` comes back as: one of the
exception classes the `try` block catches, or a parsed JSON body whose
`apiToken` field may be absent. -/
inductive LoginOutcome where
  | connectionError
  | timeout
  | httpError
  | requestException
  | jsonDecodeError
  | parsed (apiToken : Option String)
deriving Repr, DecidableEq

/-- `_handle_login_exception`: re-raise the original exception in debug
mode, else raise `LoginError(message)`. -/
def handle_login_exception (original : Err) (message : String) (debug : Bool) : Err :=
  if debug then original else Err.loginError message

/-- `BluecatClient.login`.  The base headers are assigned before the POST is
issued, so they are set on every path.  On a parsed response the token is
stored; a missing token returns `False` with no session opened; otherwise
the authorized headers are built, a session is opened and the client
transitions to logged-in, returning `True`.  Each caught exception is routed
through `_handle_login_exception`. -/
def login (c : Client) (outcome : LoginOutcome) (debug : Bool) :
    Client × Except Err Bool :=
  let c1 := { c with headers := some HeaderSet.plain }
  match outcome with
  | LoginOutcome.parsed tokenOpt =>
    let c2 := { c1 with apiToken := tokenOpt }
    match tokenOpt with
    | none => (c2, Except.ok false)
    | some tok =>
      ({ c2 with
          headers := some (HeaderSet.authorized c.username tok)
          hasSession := true
          sessionClosed := false
          loggedIn := true },
       Except.ok true)
  | LoginOutcome.connectionError =>
    (c1, Except.error (handle_login_exception Err.connectionError
      "Unable to connect to the server" debug))
  | LoginOutcome.timeout =>
    (c1, Except.error (handle_login_exception Err.timeout
      "Request timed out" debug))
  | LoginOutcome.httpError =>
    (c1, Except.error (handle_login_exception Err.httpError
      "HTTP error occurred" debug))
  | LoginOutcome.requestException =>
    (c1, Except.error (handle_login_exception Err.requestException
      "An unexpected error occurred" debug))
  | LoginOutcome.jsonDecodeError =>
    (c1, Except.error (handle_login_exception Err.jsonDecodeError
      "Error decoding JSON response" debug))

deriving instance DecidableEq for Except

/-- Outcome of one `logout()` call: the client state afterwards, the
raised-or-returned result, and whether the PATCH to `/sessions/current`
was actually issued. -/
structure LogoutResult where
  state : Client
  result : Except Err Unit
  requested : Bool
deriving Repr, DecidableEq

/-- `BluecatClient.logout`.  Guard `if self.session and self.logged_in`
(a non-None `requests.Session` is always truthy).  The PATCH is issued,
then `raise_for_status()`: on an HTTP error status the exception
propagates *before* `session.close()` and `self.logged_in = False` run,
so on the failure path the state is returned unchanged. -/
def logout (c : Client) (patchOk : Bool) : LogoutResult :=
  if c.hasSession && c.loggedIn then
    if patchOk then
      { state := { c with sessionClosed := true, loggedIn := false }
        result := Except.ok ()
        requested := true }
    else
      { state := c, result := Except.error Err.httpError, requested := true }
  else
    { state := c, result := Except.ok (), requested := false }

/-- The shape of the `data` field of a page response: key absent, JSON
null, a list of parsed entities, or some other non-list JSON value. -/
inductive DataField (α : Type) where
  | missing
  | null
  | notList
  | list (xs : List α)
deriving Repr, DecidableEq

/-- One parsed page response, as `response.json()` hands it to the loop.
`ok` models `raise_for_status()` passing; `count` is `None` when the
`count` key is absent; `next` is `response_json.get('_links', {}).get('next',
{}).get('href')`. -/
structure PageResponse (α : Type) where
  ok : Bool
  count : Option Int
  data : DataField α
  next : Option String
deriving Repr, DecidableEq

/-- `self.url_api_path`. -/
def urlApiPath : String := "/api/v2"

/-- `self.url_base`. -/
def urlBase (c : Client) : String := "https://" ++ c.hostname

/-- Python `str.startswith(prefix)`, modelled on the character lists (the
byte-position based library primitive does not evaluate by reduction). -/
def strStartsWith (s pre : String) : Bool := pre.toList.isPrefixOf s.toList

/-- Helper of `pySplitDot`: the characters read so far, in reverse, become
one piece at each dot and at the end. -/
def splitDotAux : List Char → List Char → List String
  | [], acc => [String.mk acc.reverse]
  | c :: cs, acc =>
    if c = '.' then String.mk acc.reverse :: splitDotAux cs []
    else splitDotAux cs (c :: acc)

/-- Python `str.split('.')`: pieces between dots, preserving empty pieces;
the empty string yields `[""]`. -/
def pySplitDot (s : String) : List String := splitDotAux s.toList []

/-- The endpoint-path normalization shared by `http_get_limited` and
`http_get_all`: add a leading slash when absent, then prepend the API base
(skipping the API path when the endpoint already starts with it). -/
def normalizeEndpoint (c : Client) (path : String) : String :=
  let p := if strStartsWith path "/" then path else "/" ++ path
  if strStartsWith p urlApiPath then urlBase c ++ p else urlBase c ++ urlApiPath ++ p

/-- Resolution of a pagination next-link inside `http_get_all`: absolute
links pass through, links starting with `/` are joined to the host, any
other relative form is joined with a single `/`. -/
def resolveNext (hostname url : String) : String :=
  if strStartsWith url "http" then url
  else if strStartsWith url "/" then "https://" ++ hostname ++ url
  else "https://" ++ hostname ++ "/" ++ url

/-- The `while url:` loop of `http_get_all`, one iteration per unit of
fuel.  Per page: `raise_for_status()`, the `count`-presence check, the
`count == 0` early return (before the `data` field is touched), the
list-shape check on `data`, accumulation, and cursor extraction with an
absent or empty (falsy) href terminating the loop. -/
def httpGetAllLoop {α : Type} (server : String → PageResponse α) (hostname : String) :
    Nat → String → List α → Except Err (List α)
  | 0, _, _ => Except.error Err.outOfFuel
  | fuel + 1, url, allData =>
    let resp := server url
    if resp.ok then
      match resp.count with
      | none => Except.error (Err.runtimeError "'count' not found in response_json")
      | some cnt =>
        if cnt = 0 then Except.ok allData
        else
          match resp.data with
          | DataField.missing => Except.error (Err.runtimeError "KeyError: 'data'")
          | DataField.null => Except.error (Err.typeError "Expected 'data' to be a list")
          | DataField.notList => Except.error (Err.typeError "Expected 'data' to be a list")
          | DataField.list xs =>
            let allData := allData ++ xs
            match resp.next with
            | none => Except.ok allData
            | some nextUrl =>
              if nextUrl = "" then Except.ok allData
              else httpGetAllLoop server hostname fuel (resolveNext hostname nextUrl) allData
    else Except.error Err.httpError

/-- `BluecatClient.http_get_all`: the logged-in guard, endpoint
normalization, then the pagination loop starting from an empty
accumulator. -/
def http_get_all {α : Type} (c : Client) (server : String → PageResponse α)
    (fuel : Nat) (path : String) : Except Err (List α) :=
  if c.loggedIn then httpGetAllLoop server c.hostname fuel (normalizeEndpoint c path) []
  else Except.error (Err.runtimeError "You must call login() before using this method.")

/-- `BluecatClient.http_get_limited`: the logged-in guard, endpoint
normalization, one GET, `raise_for_status()`, and the parsed body returned
as-is. -/
def http_get_limited {α : Type} (c : Client) (server : String → PageResponse α)
    (path : String) : Except Err (PageResponse α) :=
  if c.loggedIn then
    let resp := server (normalizeEndpoint c path)
    if resp.ok then Except.ok resp else Except.error Err.httpError
  else Except.error (Err.runtimeError "You must call login() before using this method.")

/-- A parsed network entity: `id` and `range` (CIDR string). -/
structure Network where
  id : Nat
  range : String
deriving Repr, DecidableEq

/-- A parsed address entity: `state`, the dotted address string, and the
embedded `_embedded.resourceRecords` collection (records kept opaquely by
identifier). -/
structure Address where
  id : Nat
  state : String
  address : String
  resourceRecords : List Nat
deriving Repr, DecidableEq

/-- A parsed view entity. -/
structure View where
  id : Nat
  name : String
deriving Repr, DecidableEq

/-- A parsed zone entity: `id`, `absoluteName`, and `zone['view']['name']`. -/
structure Zone where
  id : Nat
  absoluteName : String
  viewName : String
deriving Repr, DecidableEq

/-- `BluecatClient.get_network_by_cidr`: zero matches return `None`, a
unique match is returned, anything else raises `ValueError`. -/
def get_network_by_cidr (c : Client) (server : String → PageResponse Network)
    (fuel : Nat) (targetCidr : String) : Except Err (Option Network) :=
  match http_get_all c server fuel
      ("/networks?filter=range:eq('" ++ targetCidr ++ "')") with
  | Except.error e => Except.error e
  | Except.ok [] => Except.ok none
  | Except.ok [n] => Except.ok (some n)
  | Except.ok resp =>
    Except.error (Err.valueError ("Expected 1 network, got " ++ toString resp.length))

/-- `BluecatClient.get_cidr_contains_ip`: exactly one containing network is
required; its `range` is returned. -/
def get_cidr_contains_ip (c : Client) (server : String → PageResponse Network)
    (fuel : Nat) (ipAddress : String) : Except Err String :=
  match http_get_all c server fuel
      ("/networks?filter=range:contains('" ++ ipAddress ++ "')") with
  | Except.error e => Except.error e
  | Except.ok [n] => Except.ok n.range
  | Except.ok resp =>
    Except.error (Err.valueError ("Expected 1 network, got " ++ toString resp.length))

/-- The `for address in addresses:` loop of
`get_unassigned_addresses_in_network_by_cidr`: `UNASSIGNED` addresses are
appended unconditionally, `STATIC` addresses only when their embedded
resource-record collection is empty, every other state is skipped. -/
def filterUnassigned : List Address → List Address
  | [] => []
  | a :: rest =>
    if a.state = "UNASSIGNED" then a :: filterUnassigned rest
    else if a.state = "STATIC" then
      if a.resourceRecords.length = 0 then a :: filterUnassigned rest
      else filterUnassigned rest
    else filterUnassigned rest

/-- The addresses endpoint built from `network['id']`. -/
def addressesEndpoint (networkId : Nat) : String :=
  "/networks/" ++ toString networkId ++
    "/addresses?fields=embed(resourceRecords)&filter=state:eq('UNASSIGNED') or state:eq('STATIC')"

/-- `BluecatClient.get_unassigned_addresses_in_network_by_cidr`.  The
network lookup runs first; when it returns `None` the source immediately
evaluates `network['id']`, which raises `TypeError` on a `None` value, so
the address query is never issued in that case. -/
def get_unassigned_addresses_in_network_by_cidr (c : Client)
    (netServer : String → PageResponse Network)
    (addrServer : String → PageResponse Address)
    (fuel : Nat) (targetCidr : String) : Except Err (List Address) :=
  match get_network_by_cidr c netServer fuel targetCidr with
  | Except.error e => Except.error e
  | Except.ok none =>
    Except.error (Err.typeError "'NoneType' object is not subscriptable")
  | Except.ok (some network) =>
    match http_get_all c addrServer fuel (addressesEndpoint network.id) with
    | Except.error e => Except.error e
    | Except.ok addresses => Except.ok (filterUnassigned addresses)

/-- `BluecatClient.get_view`: an empty result returns `None`, a unique
match is returned, anything else raises `RuntimeError`. -/
def get_view (c : Client) (server : String → PageResponse View)
    (fuel : Nat) (viewName : String) : Except Err (Option View) :=
  match http_get_all c server fuel ("/views?filter=name:eq('" ++ viewName ++ "')") with
  | Except.error e => Except.error e
  | Except.ok [] => Except.ok none
  | Except.ok [v] => Except.ok (some v)
  | Except.ok vs =>
    Except.error (Err.runtimeError ("Expected 1 view, got " ++ toString vs.length))

/-- The zones endpoint queried at each level of `find_parent_zones` (note
the path carries no leading slash in the source). -/
def zoneQueryPath (searchName : String) : String :=
  "zones?filter=absoluteName:eq('" ++ searchName ++ "')"

/-- The `while len(name_parts) > 1:` loop of `find_parent_zones`: join the
current parts, query, return the zones on a hit, else drop the leftmost
part; a single remaining part ends the loop with `None`. -/
def findParentZonesLoop (c : Client) (server : String → PageResponse Zone)
    (fuel : Nat) : List String → Except Err (Option (List Zone))
  | [] => Except.ok none
  | [_] => Except.ok none
  | p :: q :: rest =>
    match http_get_all c server fuel
        (zoneQueryPath (String.intercalate "." (p :: q :: rest))) with
    | Except.error e => Except.error e
    | Except.ok [] => findParentZonesLoop c server fuel (q :: rest)
    | Except.ok (z :: zs) => Except.ok (some (z :: zs))

/-- `BluecatClient.find_parent_zones`: split the FQDN on dots and walk the
label suffixes from most specific to least. -/
def find_parent_zones (c : Client) (server : String → PageResponse Zone)
    (fuel : Nat) (fqdn : String) : Except Err (Option (List Zone)) :=
  findParentZonesLoop c server fuel (pySplitDot fqdn)

/-- Python `str.rstrip(chars)`: remove trailing characters as long as each
belongs to the character set `chars` — NOT suffix removal. -/
def pyRstrip (s : String) (chars : String) : String :=
  String.mk ((s.toList.reverse.dropWhile (fun ch => chars.toList.contains ch)).reverse)

/-- One `{"type": "IPv4Address", "address": ip, "state": "STATIC"}`
sub-object of the create payload. -/
structure AddressEntry where
  type : String
  address : String
  state : String
deriving Repr, DecidableEq

/-- Builds one address sub-object per IP string. -/
def mkAddressEntry (ip : String) : AddressEntry :=
  { type := "IPv4Address", address := ip, state := "STATIC" }

/-- One POST issued to `/zones/{id}/resourceRecords`: the target zone, the
record's relative `name`, the address sub-objects, and the optional
change-control comment header. -/
structure PostReq where
  zoneId : Nat
  name : String
  addresses : List AddressEntry
  comment : Option String
deriving Repr, DecidableEq

/-- The `for zone in zones:` loop at the end of `record_a_create`: one POST
per zone in sequence, each followed by `raise_for_status()`.  A failing POST
was still issued, so it stays in the trace; later zones are not reached. -/
def postLoop (post : Nat → Bool) (name : String) (addresses : List AddressEntry)
    (comment : Option String) : List Zone → List PostReq × Except Err Bool
  | [] => ([], Except.ok true)
  | z :: zs =>
    let req : PostReq :=
      { zoneId := z.id, name := name, addresses := addresses, comment := comment }
    if post z.id then
      let rest := postLoop post name addresses comment zs
      (req :: rest.1, rest.2)
    else ([req], Except.error Err.httpError)

/-- `BluecatClient.record_a_create`.  Validations in source order (the
`isinstance` checks are static types here; a single-string `ipaddresses` is
normalized by the source into a one-element list, so the embedding takes the
list form), then zone resolution, the view filter, the relative-name
computation via Python `rstrip` on the *first filtered* zone's apex, the
payload build, and the sequential POST loop.  Returns the POSTs issued
together with the returned-or-raised outcome. -/
def record_a_create (c : Client) (zserver : String → PageResponse Zone)
    (post : Nat → Bool) (fuel : Nat) (views : List String) (fqdn : String)
    (ipaddresses : List String) (changeControlComment : Option String) :
    List PostReq × Except Err Bool :=
  match views with
  | [] => ([], Except.error (Err.valueError "views must contain at least one item"))
  | _ :: _ =>
    match ipaddresses with
    | [] => ([], Except.error (Err.valueError "ipaddresses must contain at least one item"))
    | _ :: _ =>
      match find_parent_zones c zserver fuel fqdn with
      | Except.error e => ([], Except.error e)
      | Except.ok none =>
        ([], Except.error (Err.valueError ("Unable to find parent zone for " ++ fqdn)))
      | Except.ok (some zones) =>
        match zones with
        | [] => ([], Except.error (Err.valueError ("Unable to find parent zone for " ++ fqdn)))
        | _ :: _ =>
          match zones.filter (fun z => views.contains z.viewName) with
          | [] =>
            ([], Except.error (Err.valueError
              ("Parent zone for " ++ fqdn ++ " does not exist in the requested views")))
          | z0 :: zrest =>
            let relativeDomainName := pyRstrip fqdn ("." ++ z0.absoluteName)
            let addresses := ipaddresses.map mkAddressEntry
            postLoop post relativeDomainName addresses changeControlComment (z0 :: zrest)

/-- A well-behaved server: every URL answers one successful single page
whose `count` matches its list-shaped `data`, with no next-link.  Used to
instantiate the abstract server with a concrete query function. -/
def mkServer {α : Type} (f : String → List α) : String → PageResponse α :=
  fun url =>
    { ok := true
      count := some (Int.ofNat (f url).length)
      data := DataField.list (f url)
      next := none }

/-- Modelled from the spec: the candidate zone names of §4.4, every
dot-join of a label suffix still holding at least two labels, ordered from
most specific to least specific.  Stated from the spec's words to be
compared with the behaviour of `find_parent_zones`. -/
def suffixCandidates : List String → List String
  | [] => []
  | [_] => []
  | p :: q :: rest =>
    String.intercalate "." (p :: q :: rest) :: suffixCandidates (q :: rest)

/-- A client that has completed a successful `login()`. -/
def cIn : Client :=
  { hostname := "bam.example.net"
    username := "admin"
    password := "pw"
    verifySsl := true
    apiToken := some "tok"
    headers := some (HeaderSet.authorized "admin" "tok")
    loggedIn := true
    hasSession := true
    sessionClosed := false }

/-- A freshly constructed client: never logged in. -/
def cOut : Client := mkClient "bam.example.net" "admin" "pw" true

/-- The one registered zone of the concrete scenarios: `example.com` in the
`internal` view. -/
def zoneExampleInternal : Zone :=
  { id := 1, absoluteName := "example.com", viewName := "internal" }

/-- A zone query that matches exactly the `example.com` candidate. -/
def zqExample : String → List Zone :=
  fun url =>
    if url = normalizeEndpoint cIn (zoneQueryPath "example.com")
    then [zoneExampleInternal] else []

/-- The zone server of the concrete scenarios. -/
def zserverExample : String → PageResponse Zone := mkServer zqExample

/-- A single zero-count page carrying no data field and a (dangling)
next-link, for the pagination short-circuit scenario. -/
def pageZero : String → PageResponse Nat :=
  fun _ =>
    { ok := true, count := some 0, data := DataField.missing, next := some "/next" }

/-- A network server that matches no CIDR at all. -/
def netServerEmpty : String → PageResponse Network :=
  mkServer (fun _ => [])

/-- An address server answering every URL with an empty page. -/
def addrServerEmpty : String → PageResponse Address :=
  mkServer (fun _ => [])

/-- The network of the unassigned-addresses scenario. -/
def netTen : Network := { id := 42, range := "10.0.0.0/24" }

/-- A network server knowing exactly `netTen` under its CIDR filter. -/
def netServerTen : String → PageResponse Network :=
  mkServer (fun url =>
    if url = normalizeEndpoint cIn ("/networks?filter=range:eq('10.0.0.0/24')")
    then [netTen] else [])

/-- An explicitly unassigned address. -/
def addrUnassigned : Address :=
  { id := 101, state := "UNASSIGNED", address := "10.0.0.1", resourceRecords := [] }

/-- A static address with no resource records (operationally unassigned). -/
def addrStaticFree : Address :=
  { id := 102, state := "STATIC", address := "10.0.0.2", resourceRecords := [] }

/-- A static address still pointed at by a resource record. -/
def addrStaticUsed : Address :=
  { id := 103, state := "STATIC", address := "10.0.0.3", resourceRecords := [7] }

/-- An address in a state other than UNASSIGNED or STATIC. -/
def addrGateway : Address :=
  { id := 104, state := "GATEWAY", address := "10.0.0.4", resourceRecords := [] }

/-- The address server of the unassigned-addresses scenario. -/
def addrServerTen : String → PageResponse Address :=
  mkServer (fun url =>
    if url = normalizeEndpoint cIn (addressesEndpoint 42)
    then [addrUnassigned, addrStaticFree, addrStaticUsed, addrGateway] else [])

/-- C1 counterexample: for a logged-in session whose LOGGED_OUT PATCH
fails, `logout()` raises the HTTP error while the session is left
unclosed and still logged in — the claimed unconditional cleanup and
transition to LoggedOut do not happen. -/
theorem logout_failure_counterexample :
    (logout cIn false).result = Except.error Err.httpError ∧
    (logout cIn false).state.loggedIn = true ∧
    (logout cIn false).state.sessionClosed = false :=
  ⟨rfl, rfl, rfl⟩

/-- C1 (amended): for every session in the LoggedIn state with an open
request context, `logout()` issues the LOGGED_OUT state-change request; if
the request succeeds the context is closed and the session transitions to
LoggedOut; if the request fails with an HTTP error status, the error
propagates immediately, the context is not closed and the session remains
LoggedIn. -/
theorem logout_failure_behavior (c : Client) (hs : c.hasSession = true)
    (hl : c.loggedIn = true) :
    logout c true =
      { state := { c with sessionClosed := true, loggedIn := false }
        result := Except.ok ()
        requested := true } ∧
    logout c false =
      { state := c, result := Except.error Err.httpError, requested := true } := by
  constructor <;> simp [logout, hs, hl]

/-- Witness for the amended C1 theorem at the concrete logged-in client. -/
theorem logout_failure_behavior_witness :
    cIn.hasSession = true ∧ cIn.loggedIn = true ∧
    logout cIn false =
      { state := cIn, result := Except.error Err.httpError, requested := true } :=
  ⟨rfl, rfl, (logout_failure_behavior cIn rfl rfl).2⟩

/-- C8: a `login()` whose authentication response parses but lacks the
`apiToken` field returns `False`, leaves the logged-in flag and the session
handle exactly as they were (in particular a LoggedOut session stays
LoggedOut and no request context is opened), and leaves only the plain
pre-authentication headers set. -/
theorem login_missing_token (c : Client) (debug : Bool) :
    (login c (LoginOutcome.parsed none) debug).2 = Except.ok false ∧
    (login c (LoginOutcome.parsed none) debug).1.loggedIn = c.loggedIn ∧
    (login c (LoginOutcome.parsed none) debug).1.hasSession = c.hasSession ∧
    (login c (LoginOutcome.parsed none) debug).1.sessionClosed = c.sessionClosed ∧
    (login c (LoginOutcome.parsed none) debug).1.headers = some HeaderSet.plain :=
  ⟨rfl, rfl, rfl, rfl, rfl⟩

/-- C10: `logout()` on any session that is not LoggedIn issues no request,
raises no error and returns the state unchanged, making the scoped
`__exit__` path safe when `login()` never ran or failed. -/
theorem logout_not_logged_in_noop (c : Client) (patchOk : Bool)
    (h : c.loggedIn = false) :
    logout c patchOk = { state := c, result := Except.ok (), requested := false } := by
  simp [logout, h]

/-- Witness for the C10 theorem at a freshly constructed client. -/
theorem logout_not_logged_in_noop_witness :
    cOut.loggedIn = false ∧
    logout cOut true = { state := cOut, result := Except.ok (), requested := false } :=
  ⟨rfl, logout_not_logged_in_noop cOut true rfl⟩

/-- C3: a page answering with `count == 0` makes the pagination loop return
the data accumulated so far at once — whatever shape (missing, null, …) the
page's `data` field has and whatever next-link it carries — and at the
first page `http_get_all` therefore returns an empty accumulation. -/
theorem http_get_all_zero_count {α : Type} (server : String → PageResponse α)
    (hostname : String) (fuel : Nat) (url : String) (acc : List α)
    (hok : (server url).ok = true) (hcount : (server url).count = some 0) :
    httpGetAllLoop server hostname (fuel + 1) url acc = Except.ok acc ∧
    (∀ c path, c.loggedIn = true → normalizeEndpoint c path = url → c.hostname = hostname →
      http_get_all c server (fuel + 1) path = Except.ok []) := by
  have main : ∀ acc2 : List α,
      httpGetAllLoop server hostname (fuel + 1) url acc2 = Except.ok acc2 := by
    intro acc2
    simp [httpGetAllLoop, hok, hcount]
  refine ⟨main acc, ?_⟩
  intro c path hc hp hh
  simp only [http_get_all, hc, if_true]
  rw [hp, hh]
  exact main []

/-- Witness for the C3 theorem: a zero-count first page with no `data` key
and a dangling next-link still short-circuits, both at a non-trivial
accumulator and through `http_get_all`. -/
theorem http_get_all_zero_count_witness :
    (pageZero "u").ok = true ∧ (pageZero "u").count = some 0 ∧
    httpGetAllLoop pageZero "h" 1 "u" [5, 6] = Except.ok [5, 6] ∧
    http_get_all cIn pageZero 1 "/networks" = Except.ok [] := by
  have h := http_get_all_zero_count pageZero "h" 0 "u" [5, 6] rfl rfl
  have h2 := http_get_all_zero_count pageZero cIn.hostname 0
    (normalizeEndpoint cIn "/networks") [] rfl rfl
  exact ⟨rfl, rfl, h.1, h2.2 cIn "/networks" rfl rfl rfl⟩

/-- C9: when the CIDR matches zero networks, `get_network_by_cidr` returns
`None` and the immediately following `network['id']` subscript raises
`TypeError`, before any address query is issued: the outcome is this error
for every possible address server. -/
theorem get_unassigned_null_network (c : Client)
    (netServer : String → PageResponse Network)
    (addrServer : String → PageResponse Address) (fuel : Nat) (cidr : String)
    (h : get_network_by_cidr c netServer fuel cidr = Except.ok none) :
    get_unassigned_addresses_in_network_by_cidr c netServer addrServer fuel cidr =
      Except.error (Err.typeError "'NoneType' object is not subscriptable") := by
  unfold get_unassigned_addresses_in_network_by_cidr
  simp only [h]

/-- Witness for the C9 theorem: a network server matching no CIDR. -/
theorem get_unassigned_null_network_witness :
    get_network_by_cidr cIn netServerEmpty 1 "10.9.9.0/24" = Except.ok none ∧
    get_unassigned_addresses_in_network_by_cidr cIn netServerEmpty addrServerEmpty 1
        "10.9.9.0/24" =
      Except.error (Err.typeError "'NoneType' object is not subscriptable") :=
  ⟨rfl, get_unassigned_null_network cIn netServerEmpty addrServerEmpty 1 "10.9.9.0/24" rfl⟩

/-- Membership in the client-side unassigned refinement: kept exactly the
source's loop shape (UNASSIGNED first and unconditional, STATIC only with
an empty embedded record list, everything else dropped). -/
theorem mem_filterUnassigned (a : Address) (addrs : List Address) :
    a ∈ filterUnassigned addrs ↔
      a ∈ addrs ∧
        (a.state = "UNASSIGNED" ∨ (a.state = "STATIC" ∧ a.resourceRecords = [])) := by
  induction addrs with
  | nil => simp [filterUnassigned]
  | cons b rest ih =>
    by_cases h1 : b.state = "UNASSIGNED"
    · simp only [filterUnassigned, if_pos h1, List.mem_cons, ih]
      constructor
      · rintro (rfl | ⟨ha, hc⟩)
        exacts [⟨Or.inl rfl, Or.inl h1⟩, ⟨Or.inr ha, hc⟩]
      · rintro ⟨rfl | ha, hc⟩
        exacts [Or.inl rfl, Or.inr ⟨ha, hc⟩]
    · by_cases h2 : b.state = "STATIC"
      · by_cases h3 : b.resourceRecords.length = 0
        · simp only [filterUnassigned, if_neg h1, if_pos h2, if_pos h3, List.mem_cons, ih]
          have hrec : b.resourceRecords = [] := List.length_eq_zero.mp h3
          constructor
          · rintro (rfl | ⟨ha, hc⟩)
            exacts [⟨Or.inl rfl, Or.inr ⟨h2, hrec⟩⟩, ⟨Or.inr ha, hc⟩]
          · rintro ⟨rfl | ha, hc⟩
            exacts [Or.inl rfl, Or.inr ⟨ha, hc⟩]
        · simp only [filterUnassigned, if_neg h1, if_pos h2, if_neg h3, List.mem_cons, ih]
          constructor
          · rintro ⟨ha, hc⟩
            exact ⟨Or.inr ha, hc⟩
          · rintro ⟨rfl | ha, hc⟩
            · rcases hc with hu | ⟨_, hrec⟩
              · exact absurd hu h1
              · exact absurd (by simp [hrec]) h3
            · exact ⟨ha, hc⟩
      · simp only [filterUnassigned, if_neg h1, if_neg h2, List.mem_cons, ih]
        constructor
        · rintro ⟨ha, hc⟩
          exact ⟨Or.inr ha, hc⟩
        · rintro ⟨rfl | ha, hc⟩
          · rcases hc with hu | ⟨hs, _⟩
            exacts [absurd hu h1, absurd hs h2]
          · exact ⟨ha, hc⟩

/-- C4: on a resolved network whose address query answers `addrs`, the
operation returns precisely the refinement of `addrs`, and an address is
in that result iff it came from `addrs` and its state is UNASSIGNED, or its
state is STATIC with an empty embedded resource-record list; STATIC with
records, or any other state, is excluded. -/
theorem unassigned_filter_membership (c : Client)
    (netServer : String → PageResponse Network)
    (addrServer : String → PageResponse Address) (fuel : Nat) (cidr : String)
    (network : Network) (addrs : List Address)
    (hnet : get_network_by_cidr c netServer fuel cidr = Except.ok (some network))
    (haddr : http_get_all c addrServer fuel (addressesEndpoint network.id) =
      Except.ok addrs) :
    get_unassigned_addresses_in_network_by_cidr c netServer addrServer fuel cidr =
      Except.ok (filterUnassigned addrs) ∧
    ∀ a : Address, a ∈ filterUnassigned addrs ↔
      a ∈ addrs ∧
        (a.state = "UNASSIGNED" ∨ (a.state = "STATIC" ∧ a.resourceRecords = [])) := by
  constructor
  · unfold get_unassigned_addresses_in_network_by_cidr
    simp only [hnet, haddr]
  · intro a
    exact mem_filterUnassigned a addrs

set_option maxRecDepth 8000 in
/-- Witness for the C4 theorem: of the four scenario addresses exactly the
UNASSIGNED one and the record-free STATIC one are returned. -/
theorem unassigned_filter_membership_witness :
    get_unassigned_addresses_in_network_by_cidr cIn netServerTen addrServerTen 1
        "10.0.0.0/24" =
      Except.ok [addrUnassigned, addrStaticFree] ∧
    addrStaticUsed ∉
      filterUnassigned [addrUnassigned, addrStaticFree, addrStaticUsed, addrGateway] ∧
    addrGateway ∉
      filterUnassigned [addrUnassigned, addrStaticFree, addrStaticUsed, addrGateway] := by
  have h := unassigned_filter_membership cIn netServerTen addrServerTen 1 "10.0.0.0/24"
    netTen [addrUnassigned, addrStaticFree, addrStaticUsed, addrGateway] rfl rfl
  exact ⟨h.1.trans (by rfl), by decide, by decide⟩

/-- Against a well-behaved single-page server, `http_get_all` by a
logged-in client returns exactly the server's answer at the normalized
endpoint (one unit of fuel is spent). -/
theorem http_get_all_mkServer {α : Type} (f : String → List α) (c : Client)
    (fuel : Nat) (path : String) (h : c.loggedIn = true) :
    http_get_all c (mkServer f) (fuel + 1) path =
      Except.ok (f (normalizeEndpoint c path)) := by
  have hloop :
      httpGetAllLoop (mkServer f) c.hostname (fuel + 1) (normalizeEndpoint c path) [] =
        Except.ok (f (normalizeEndpoint c path)) := by
    by_cases hf : f (normalizeEndpoint c path) = []
    · simp [httpGetAllLoop, mkServer, hf]
    · have hlen : Int.ofNat (f (normalizeEndpoint c path)).length ≠ 0 := by
        simpa [Int.ofNat_eq_zero, List.length_eq_zero] using hf
      simp [httpGetAllLoop, mkServer, hlen]
  simp [http_get_all, h, hloop]

/-- The zone-resolver loop against a well-behaved server: the result is the
full server answer at the first (most specific) candidate whose zone list
is non-empty, and `none` when every candidate misses. -/
theorem findParentZonesLoop_mkServer (c : Client) (zq : String → List Zone)
    (fuel : Nat) (h : c.loggedIn = true) :
    ∀ parts : List String,
      findParentZonesLoop c (mkServer zq) (fuel + 1) parts =
        Except.ok
          (((suffixCandidates parts).find?
              (fun name => !(zq (normalizeEndpoint c (zoneQueryPath name))).isEmpty)).map
            (fun name => zq (normalizeEndpoint c (zoneQueryPath name))))
  | [] => by simp [findParentZonesLoop, suffixCandidates]
  | [p] => by simp [findParentZonesLoop, suffixCandidates]
  | p :: q :: rest => by
    have ih := findParentZonesLoop_mkServer c zq fuel h (q :: rest)
    have hget := http_get_all_mkServer zq c fuel
      (zoneQueryPath (String.intercalate "." (p :: q :: rest))) h
    cases hz : zq (normalizeEndpoint c
        (zoneQueryPath (String.intercalate "." (p :: q :: rest)))) with
    | nil =>
      rw [hz] at hget
      simp only [findParentZonesLoop, hget, ih, suffixCandidates]
      simp [List.find?, hz]
    | cons z zs =>
      rw [hz] at hget
      simp only [findParentZonesLoop, hget, suffixCandidates]
      simp [List.find?, hz]

/-- Every candidate name the resolver queries is the dot-join of at least
two labels: a bare single label is never queried. -/
theorem suffixCandidates_two_labels :
    ∀ parts : List String, ∀ s ∈ suffixCandidates parts,
      ∃ l1 l2 ls, s = String.intercalate "." (l1 :: l2 :: ls)
  | [] => by simp [suffixCandidates]
  | [p] => by simp [suffixCandidates]
  | p :: q :: rest => by
    intro s hs
    simp only [suffixCandidates, List.mem_cons] at hs
    rcases hs with rfl | hs
    · exact ⟨p, q, rest, rfl⟩
    · exact suffixCandidates_two_labels (q :: rest) s hs

/-- C5: `find_parent_zones` returns the full zone list of the first
candidate — walking the dot-separated label suffixes from most specific to
least specific — whose query answers non-empty, with no merging across
levels, and returns null when every candidate misses; every queried
candidate joins at least two labels, so a bare top-level label is never
queried. -/
theorem find_parent_zones_most_specific (c : Client) (zq : String → List Zone)
    (fuel : Nat) (fqdn : String) (h : c.loggedIn = true) :
    find_parent_zones c (mkServer zq) (fuel + 1) fqdn =
      Except.ok
        (((suffixCandidates (pySplitDot fqdn)).find?
            (fun name => !(zq (normalizeEndpoint c (zoneQueryPath name))).isEmpty)).map
          (fun name => zq (normalizeEndpoint c (zoneQueryPath name)))) ∧
    ∀ s ∈ suffixCandidates (pySplitDot fqdn),
      ∃ l1 l2 ls, s = String.intercalate "." (l1 :: l2 :: ls) :=
  ⟨findParentZonesLoop_mkServer c zq fuel h (pySplitDot fqdn),
   fun s hs => suffixCandidates_two_labels (pySplitDot fqdn) s hs⟩

set_option maxRecDepth 8000 in
/-- Witness for the C5 theorem: with only `example.com` registered, the
resolver on `a.b.example.com` misses `a.b.example.com` and
`b.example.com` and returns the `example.com` zones. -/
theorem find_parent_zones_most_specific_witness :
    cIn.loggedIn = true ∧
    find_parent_zones cIn (mkServer zqExample) 1 "a.b.example.com" =
      Except.ok (some [zoneExampleInternal]) := by
  have h := (find_parent_zones_most_specific cIn zqExample 0 "a.b.example.com" rfl).1
  exact ⟨rfl, h.trans (by decide)⟩

/-- Every request the POST loop issues targets one of the zones it was
given (with the loop's fixed payload). -/
theorem postLoop_mem (post : Nat → Bool) (name : String)
    (addrs : List AddressEntry) (comment : Option String) :
    ∀ zs : List Zone, ∀ r ∈ (postLoop post name addrs comment zs).1,
      ∃ z ∈ zs,
        r = { zoneId := z.id, name := name, addresses := addrs, comment := comment }
  | [] => by simp [postLoop]
  | z :: zs => by
    intro r hr
    simp only [postLoop] at hr
    by_cases hp : post z.id
    · rw [if_pos hp] at hr
      simp only [List.mem_cons] at hr
      rcases hr with rfl | hr
      · exact ⟨z, List.mem_cons_self z zs, rfl⟩
      · obtain ⟨z2, hz2, hr2⟩ := postLoop_mem post name addrs comment zs r hr
        exact ⟨z2, List.mem_cons_of_mem z hz2, hr2⟩
    · rw [if_neg hp] at hr
      simp only [List.mem_singleton] at hr
      exact ⟨z, List.mem_cons_self z zs, hr⟩

/-- When every POST succeeds, the loop issues exactly one request per zone,
in order, and reports success. -/
theorem postLoop_all_ok (post : Nat → Bool) (name : String)
    (addrs : List AddressEntry) (comment : Option String) :
    ∀ zs : List Zone, (∀ z ∈ zs, post z.id = true) →
      postLoop post name addrs comment zs =
        (zs.map (fun z =>
          { zoneId := z.id, name := name, addresses := addrs, comment := comment }),
         Except.ok true)
  | [] => by simp [postLoop]
  | z :: zs => by
    intro hall
    have hz := hall z (List.mem_cons_self z zs)
    have ih := postLoop_all_ok post name addrs comment zs
      (fun w hw => hall w (List.mem_cons_of_mem z hw))
    simp [postLoop, hz, ih]

/-- C6: with resolved zones in hand, `record_a_create` fails with zero
POSTs when no resolved zone's view is in the requested views, every POST it
does issue targets a zone whose view name is in the requested views, and
when every POST succeeds the issued requests are exactly one per filtered
zone — so with views `["internal", "external"]` and only an internal zone
resolved, exactly one create request is issued and nothing touches
`external`. -/
theorem record_a_create_view_filtering (c : Client)
    (zserver : String → PageResponse Zone) (post : Nat → Bool) (fuel : Nat)
    (v : String) (vs : List String) (fqdn : String) (ip : String)
    (ips : List String) (comment : Option String) (z1 : Zone) (zrest : List Zone)
    (hz : find_parent_zones c zserver fuel fqdn = Except.ok (some (z1 :: zrest))) :
    ((z1 :: zrest).filter (fun z => (v :: vs).contains z.viewName) = [] →
      record_a_create c zserver post fuel (v :: vs) fqdn (ip :: ips) comment =
        ([], Except.error (Err.valueError
          ("Parent zone for " ++ fqdn ++ " does not exist in the requested views")))) ∧
    (∀ r ∈ (record_a_create c zserver post fuel (v :: vs) fqdn (ip :: ips) comment).1,
      ∃ z ∈ (z1 :: zrest).filter (fun z => (v :: vs).contains z.viewName),
        (v :: vs).contains z.viewName = true ∧ r.zoneId = z.id) ∧
    ((∀ z ∈ (z1 :: zrest).filter (fun z => (v :: vs).contains z.viewName),
        post z.id = true) →
      ∀ z0 zs2,
        (z1 :: zrest).filter (fun z => (v :: vs).contains z.viewName) = z0 :: zs2 →
        (record_a_create c zserver post fuel (v :: vs) fqdn (ip :: ips) comment).1 =
          (z0 :: zs2).map (fun z =>
            { zoneId := z.id
              name := pyRstrip fqdn ("." ++ z0.absoluteName)
              addresses := (ip :: ips).map mkAddressEntry
              comment := comment })) := by
  refine ⟨?_, ?_, ?_⟩
  · intro hfil
    simp only [record_a_create, hz, hfil]
  · intro r hr
    rcases hfil : (z1 :: zrest).filter (fun z => (v :: vs).contains z.viewName) with
      _ | ⟨z0, zs2⟩
    · simp only [record_a_create, hz, hfil] at hr
      simp at hr
    · simp only [record_a_create, hz, hfil] at hr
      obtain ⟨z2, hz2, rfl⟩ :=
        postLoop_mem post (pyRstrip fqdn ("." ++ z0.absoluteName))
          ((ip :: ips).map mkAddressEntry) comment (z0 :: zs2) r hr
      have hz2f : z2 ∈ (z1 :: zrest).filter (fun z => (v :: vs).contains z.viewName) := by
        rw [hfil]
        exact hz2
      exact ⟨z2, hz2f, (List.mem_filter.mp hz2f).2, rfl⟩
  · intro hall z0 zs2 hfil
    rw [hfil] at hall
    simp only [record_a_create, hz, hfil]
    rw [postLoop_all_ok post (pyRstrip fqdn ("." ++ z0.absoluteName))
      ((ip :: ips).map mkAddressEntry) comment (z0 :: zs2) hall]

set_option maxRecDepth 8000 in
/-- Witness for the C6 theorem: requested views internal and external, only
an internal `example.com` zone resolved — exactly one create request is
issued, to the internal zone, with relative name `test`. -/
theorem record_a_create_view_filtering_witness :
    find_parent_zones cIn (mkServer zqExample) 1 "test.example.com" =
      Except.ok (some [zoneExampleInternal]) ∧
    (record_a_create cIn (mkServer zqExample) (fun _ => true) 1
        ["internal", "external"] "test.example.com" ["10.0.0.9"] none).1 =
      [{ zoneId := 1
         name := "test"
         addresses := [mkAddressEntry "10.0.0.9"]
         comment := none }] := by
  have h := (record_a_create_view_filtering cIn (mkServer zqExample) (fun _ => true) 1
    "internal" ["external"] "test.example.com" "10.0.0.9" [] none
    zoneExampleInternal [] (by decide)).2.2
    (by intro z _; rfl) zoneExampleInternal [] (by decide)
  exact ⟨by decide, h.trans (by decide)⟩

/-- On a logged-out client the zone-resolver loop propagates the
unauthenticated-use error as soon as it would issue its first query (two or
more labels left), but with at most one label it returns `none` without
ever reaching `http_get_all`. -/
theorem findParentZonesLoop_loggedOut (c : Client)
    (zserver : String → PageResponse Zone) (fuel : Nat) (h : c.loggedIn = false) :
    ∀ parts : List String,
      (2 ≤ parts.length →
        findParentZonesLoop c zserver fuel parts =
          Except.error
            (Err.runtimeError "You must call login() before using this method.")) ∧
      (parts.length ≤ 1 → findParentZonesLoop c zserver fuel parts = Except.ok none)
  | [] => by simp [findParentZonesLoop]
  | [p] => by simp [findParentZonesLoop]
  | p :: q :: rest => by
    constructor
    · intro _
      simp [findParentZonesLoop, http_get_all, h]
    · intro hlen
      exfalso
      simp only [List.length_cons] at hlen
      omega

/-- C7 (amended): while LoggedOut, `http_get_limited` and `http_get_all`
fail with the unauthenticated-use RuntimeError for every server, and so
does every lookup built on them as soon as it reaches its first request —
but an operation that returns or fails on purely local grounds does so
without issuing any request: `find_parent_zones` on a single-label name
returns null, and `record_a_create` always ends in an error having issued
zero POSTs.  In every case no request is issued while LoggedOut. -/
theorem unauthenticated_use_guard (c : Client) (h : c.loggedIn = false)
    {α : Type} (server : String → PageResponse α)
    (netServer : String → PageResponse Network)
    (addrServer : String → PageResponse Address)
    (viewServer : String → PageResponse View)
    (zserver : String → PageResponse Zone) (post : Nat → Bool) (fuel : Nat)
    (path cidr ip viewName fqdn v : String) (vs : List String)
    (ip0 : String) (ips0 : List String) (comment : Option String) :
    http_get_limited c server path =
      Except.error (Err.runtimeError "You must call login() before using this method.") ∧
    http_get_all c server fuel path =
      Except.error (Err.runtimeError "You must call login() before using this method.") ∧
    get_network_by_cidr c netServer fuel cidr =
      Except.error (Err.runtimeError "You must call login() before using this method.") ∧
    get_cidr_contains_ip c netServer fuel ip =
      Except.error (Err.runtimeError "You must call login() before using this method.") ∧
    get_view c viewServer fuel viewName =
      Except.error (Err.runtimeError "You must call login() before using this method.") ∧
    get_unassigned_addresses_in_network_by_cidr c netServer addrServer fuel cidr =
      Except.error (Err.runtimeError "You must call login() before using this method.") ∧
    (2 ≤ (pySplitDot fqdn).length →
      find_parent_zones c zserver fuel fqdn =
        Except.error (Err.runtimeError "You must call login() before using this method.")) ∧
    ((pySplitDot fqdn).length ≤ 1 →
      find_parent_zones c zserver fuel fqdn = Except.ok none) ∧
    (record_a_create c zserver post fuel (v :: vs) fqdn (ip0 :: ips0) comment).1 = [] ∧
    (∃ e, (record_a_create c zserver post fuel (v :: vs) fqdn (ip0 :: ips0) comment).2 =
      Except.error e) := by
  have hfp := findParentZonesLoop_loggedOut c zserver fuel h (pySplitDot fqdn)
  have hrec :
      (record_a_create c zserver post fuel (v :: vs) fqdn (ip0 :: ips0) comment).1 = [] ∧
      ∃ e, (record_a_create c zserver post fuel (v :: vs) fqdn (ip0 :: ips0) comment).2 =
        Except.error e := by
    by_cases hlen : 2 ≤ (pySplitDot fqdn).length
    · have hfind : find_parent_zones c zserver fuel fqdn =
          Except.error
            (Err.runtimeError "You must call login() before using this method.") :=
        hfp.1 hlen
      refine ⟨?_, Err.runtimeError "You must call login() before using this method.", ?_⟩
      · simp only [record_a_create, hfind]
      · simp only [record_a_create, hfind]
    · have hfind : find_parent_zones c zserver fuel fqdn = Except.ok none :=
        hfp.2 (by omega)
      refine ⟨?_, Err.valueError ("Unable to find parent zone for " ++ fqdn), ?_⟩
      · simp only [record_a_create, hfind]
      · simp only [record_a_create, hfind]
  refine ⟨by simp [http_get_limited, h], by simp [http_get_all, h], ?_, ?_, ?_, ?_,
    fun hlen => hfp.1 hlen, fun hlen => hfp.2 hlen, hrec.1, hrec.2⟩
  · simp [get_network_by_cidr, http_get_all, h]
  · simp [get_cidr_contains_ip, http_get_all, h]
  · simp [get_view, http_get_all, h]
  · simp [get_unassigned_addresses_in_network_by_cidr, get_network_by_cidr,
      http_get_all, h]

set_option maxRecDepth 8000 in
/-- C7 counterexample: `find_parent_zones` invoked on a single-label name
while LoggedOut succeeds with null instead of failing with the
unauthenticated-use RuntimeError (its loop body, where the guard lives, is
never entered). -/
theorem unauthenticated_use_counterexample :
    find_parent_zones cOut zserverExample 3 "localhost" = Except.ok none ∧
    find_parent_zones cOut zserverExample 3 "localhost" ≠
      Except.error (Err.runtimeError "You must call login() before using this method.") := by
  exact ⟨by decide, by decide⟩

set_option maxRecDepth 8000 in
/-- Witness for the amended C7 theorem at a fresh client: pagination and a
multi-label zone resolution fail with the unauthenticated-use error, and
record creation issues zero POSTs. -/
theorem unauthenticated_use_guard_witness :
    cOut.loggedIn = false ∧
    http_get_all cOut pageZero 3 "/networks" =
      Except.error (Err.runtimeError "You must call login() before using this method.") ∧
    find_parent_zones cOut zserverExample 3 "a.example.com" =
      Except.error (Err.runtimeError "You must call login() before using this method.") ∧
    (record_a_create cOut zserverExample (fun _ => true) 3 ["internal"]
      "a.example.com" ["10.0.0.1"] none).1 = [] := by
  have h := unauthenticated_use_guard cOut rfl pageZero netServerEmpty addrServerEmpty
    (mkServer (fun _ => ([] : List View))) zserverExample (fun _ => true) 3
    "/networks" "10.0.0.0/24" "10.0.0.1" "internal" "a.example.com" "internal" []
    "10.0.0.1" [] none
  exact ⟨rfl, h.2.1, h.2.2.2.2.2.2.1 (by decide), h.2.2.2.2.2.2.2.2.1⟩

set_option maxRecDepth 8000 in
/-- C2 (a bug in the source): the relative name is computed with Python
`rstrip`, which strips a trailing *character set* rather than the suffix
`"." + zones[0].absoluteName`: for `foo.example.com` under zone
`example.com` the create request carries name `f`, and re-appending the
apex does not reconstruct the FQDN. -/
theorem record_a_create_rstrip_bug :
    pyRstrip "foo.example.com" ".example.com" = "f" ∧
    (record_a_create cIn (mkServer zqExample) (fun _ => true) 1 ["internal"]
        "foo.example.com" ["10.0.0.5"] none).1 =
      [{ zoneId := 1
         name := "f"
         addresses := [mkAddressEntry "10.0.0.5"]
         comment := none }] ∧
    "f" ++ "." ++ "example.com" ≠ "foo.example.com" := by
  exact ⟨by decide, by decide, by decide⟩
